import Mathlib

/-!
Shallow embedding of the inference service in
`civickural/heck1/main.py`: configuration constants, image preprocessing,
dual-head prediction decoding, and the `/predict` and `/health` handlers,
together with the Python exception semantics that connect them
(`raise`/`except` clauses become an explicit error type threaded through
`Except`).  External collaborators (PIL decoding and Lanczos resampling,
the Keras model) are modelled as abstract function parameters; everything
original to `main.py` is translated directly.  Floating-point values are
modelled as rationals: the code only compares, copies, and divides by 255,
so no rounding behaviour is involved in the properties below.
-/

namespace CivicKural

/-- Python exception values that `main.py` can raise: `ValueError` (raised by
`preprocess_image`), `RuntimeError` (raised by `predict_issue_and_severity`),
`KeyError` (dict lookup miss), `IndexError` (list index out of range), and
FastAPI's `HTTPException` carrying a status code and a detail string. -/
inductive PyError where
  | valueError (msg : String)
  | runtimeError (msg : String)
  | keyError (key : String)
  | indexError
  | httpException (statusCode : Nat) (detail : String)
  deriving DecidableEq, Repr

/-- Python `str(e)` for each exception: `ValueError`/`RuntimeError` show their
message, `KeyError` shows the quoted key, `IndexError` shows
"list index out of range", and Starlette's `HTTPException.__str__` is
"\x7bstatus_code\x7d: \x7bdetail\x7d". -/
def pyStr : PyError → String
  | .valueError m => m
  | .runtimeError m => m
  | .keyError k => "\x27" ++ k ++ "\x27"
  | .indexError => "list index out of range"
  | .httpException c d => toString c ++ ": " ++ d

/-- `MODEL_INPUT_SIZE = (224, 224)` (main.py line 32). -/
def MODEL_INPUT_SIZE : Nat × Nat := (224, 224)

/-- `ISSUE_CLASSES` (main.py line 35). -/
def ISSUE_CLASSES : List String :=
  ["pothole", "garbage", "broken_streetlight", "waterlogging"]

/-- `SEVERITY_CLASSES` (main.py line 36). -/
def SEVERITY_CLASSES : List String := ["low", "medium", "high"]

/-- `ALLOWED_EXTENSIONS` (main.py line 38): a Python set; only membership is
used, so a list models it. -/
def ALLOWED_EXTENSIONS : List String :=
  [".jpg", ".jpeg", ".png", ".JPG", ".JPEG", ".PNG"]

/-- Python list/array subscription `l[i]` for a non-negative index: the value
at `i`, or `IndexError` when `i` is out of range. -/
def pyGet {α : Type} (l : List α) (i : Nat) : Except PyError α :=
  if h : i < l.length then .ok (l.get ⟨i, h⟩) else .error .indexError

/-- Python dict subscription `d[key]`: first binding for the key, or
`KeyError`. -/
def dictGet {α : Type} (entries : List (String × α)) (key : String) :
    Except PyError α :=
  match entries.find? (fun e => e.1 == key) with
  | some e => .ok e.2
  | none => .error (.keyError key)

/-- `np.argmax` on a nonempty 1-D array: index of the first occurrence of the
maximum (a later element replaces the current best only when strictly
greater).  The `[]` case is unreachable through `npArgmax`. -/
def argmax : List ℚ → Nat
  | [] => 0
  | [_] => 0
  | x :: y :: ys =>
    let j := argmax (y :: ys)
    if x < (y :: ys).getD j 0 then j + 1 else 0

/-- `np.argmax` including numpy's behaviour on an empty array: it raises
`ValueError` rather than returning an index. -/
def npArgmax (l : List ℚ) : Except PyError Nat :=
  if l.isEmpty then
    .error (.valueError "attempt to get argmax of an empty sequence")
  else
    .ok (argmax l)

/-- The shape of `model.predict`'s return value (main.py lines 181–187):
either a dict keyed by output-head name, each value a `[batch, n]` array, or
a list/tuple of `[batch, n]` arrays in head order. -/
inductive Predictions where
  | keyed (entries : List (String × List (List ℚ)))
  | positional (outputs : List (List (List ℚ)))

/-- Lines 181–187: `issue_probs = predictions["issue_output"][0]` and
`severity_probs = predictions["severity_output"][0]` in the keyed case, or
`predictions[0][0]` / `predictions[1][0]` in the positional fallback. -/
def extractProbs : Predictions → Except PyError (List ℚ × List ℚ)
  | .keyed entries => do
    let issueArr ← dictGet entries "issue_output"
    let issue_probs ← pyGet issueArr 0
    let severityArr ← dictGet entries "severity_output"
    let severity_probs ← pyGet severityArr 0
    pure (issue_probs, severity_probs)
  | .positional outputs => do
    let issueArr ← pyGet outputs 0
    let issue_probs ← pyGet issueArr 0
    let severityArr ← pyGet outputs 1
    let severity_probs ← pyGet severityArr 0
    pure (issue_probs, severity_probs)

/-- The dict built at main.py lines 203–208, including the
`severity_confidence` entry. -/
structure InternalResult where
  issue_type : String
  severity : String
  confidence : ℚ
  severity_confidence : ℚ
  deriving DecidableEq, Repr

/-- The body of the `try` block of `predict_issue_and_severity` after
`model.predict` (main.py lines 181–208): extract the two probability vectors,
take each head's argmax, map the indices through the class lists, and read
off confidence and severity confidence.  Each step's possible Python
exception is surfaced in `Except`. -/
def decodePredictions (predictions : Predictions) :
    Except PyError InternalResult := do
  let probs ← extractProbs predictions
  let issue_probs := probs.1
  let severity_probs := probs.2
  let issue_idx ← npArgmax issue_probs
  let severity_idx ← npArgmax severity_probs
  let issue_type ← pyGet ISSUE_CLASSES issue_idx
  let severity ← pyGet SEVERITY_CLASSES severity_idx
  let confidence ← pyGet issue_probs issue_idx
  let severity_confidence ← pyGet severity_probs severity_idx
  pure ⟨issue_type, severity, confidence, severity_confidence⟩

/-- A decoded, RGB-converted, resized image: a grid of (R, G, B) pixels.
Produced by the external PIL pipeline (`Image.open`, `convert("RGB")`,
`resize(MODEL_INPUT_SIZE, LANCZOS)`); PIL guarantees 8-bit channels and the
requested dimensions, stated as `wellSized` below. -/
structure RGBImage where
  pixels : List (List (Nat × Nat × Nat))

/-- The postcondition of PIL's decode/convert/resize: a
`MODEL_INPUT_SIZE`-sized grid of 8-bit RGB pixels. -/
def RGBImage.wellSized (img : RGBImage) : Prop :=
  img.pixels.length = MODEL_INPUT_SIZE.1 ∧
  ∀ row ∈ img.pixels, row.length = MODEL_INPUT_SIZE.2 ∧
    ∀ px ∈ row, px.1 ≤ 255 ∧ px.2.1 ≤ 255 ∧ px.2.2 ≤ 255

/-- The 4-D array returned by `preprocess_image`:
batch / height / width / channel nesting. -/
abbrev Tensor := List (List (List (List ℚ)))

/-- One pixel as its channel list after `img_array / 255.0`
(main.py line 141). -/
def pixelToChannels (px : Nat × Nat × Nat) : List ℚ :=
  [(px.1 : ℚ) / 255, (px.2.1 : ℚ) / 255, (px.2.2 : ℚ) / 255]

/-- `np.array(image, dtype=np.float32) / 255.0` (main.py lines 138–141). -/
def normalizeImage (img : RGBImage) : List (List (List ℚ)) :=
  img.pixels.map (fun row => row.map pixelToChannels)

/-- `np.expand_dims(img_array, axis=0)` (main.py line 144). -/
def expandDims (a : List (List (List ℚ))) : Tensor := [a]

/-- `preprocess_image` (main.py lines 109–149).  The external PIL steps
(`Image.open` + `convert("RGB")` + `resize(..., LANCZOS)`) are the
`decodeResize` parameter: `none` models any exception they raise, which the
source's `except Exception` wraps into
`ValueError(f"Image preprocessing failed: ...")`.  The original steps are the
division by 255 and the added batch dimension. -/
def preprocess_image (decodeResize : List Nat → Option RGBImage)
    (image_bytes : List Nat) : Except PyError Tensor :=
  match decodeResize image_bytes with
  | none => .error (.valueError "Image preprocessing failed: cannot identify image file")
  | some img => .ok (expandDims (normalizeImage img))

/-- `predict_issue_and_severity` (main.py lines 155–211): `RuntimeError` when
the global model is `None`; otherwise run the (abstract) model and decode,
wrapping any exception from the `try` block into
`RuntimeError(f"Model inference failed: {e}")`. -/
def predict_issue_and_severity (model : Option (Tensor → Predictions))
    (image_array : Tensor) : Except PyError InternalResult :=
  match model with
  | none => .error (.runtimeError "Model not loaded. Please restart the service.")
  | some infer =>
    match decodePredictions (infer image_array) with
    | .ok r => .ok r
    | .error e => .error (.runtimeError ("Model inference failed: " ++ pyStr e))

/-- `PredictionResponse` (main.py lines 47–51): the pydantic response model
for `/predict`, with exactly three declared fields. -/
structure PredictionResponse where
  issue_type : String
  severity : String
  confidence : ℚ
  deriving DecidableEq, Repr

/-- `HealthResponse` (main.py lines 54–57). -/
structure HealthResponse where
  status : String
  model_loaded : Bool
  deriving DecidableEq, Repr

/-- JSON leaf values appearing in the serialized responses. -/
inductive JsonValue where
  | str (s : String)
  | num (q : ℚ)
  deriving DecidableEq, Repr

/-- Pydantic's serialization of `PredictionResponse`: exactly the declared
fields, in declaration order (main.py lines 47–51). -/
def PredictionResponse.toJson (r : PredictionResponse) :
    List (String × JsonValue) :=
  [("issue_type", .str r.issue_type), ("severity", .str r.severity),
   ("confidence", .num r.confidence)]

/-- Index of the last occurrence of `c` (CPython `str.rfind` helper), with
accumulator `best` holding `-1` initially. -/
def rfindAux (cs : List Char) (c : Char) (i : Nat) (best : Int) : Int :=
  match cs with
  | [] => best
  | x :: xs => rfindAux xs c (i + 1) (if x = c then (i : Int) else best)

/-- Python `p.rfind(c)`: last index of `c` in `p`, or `-1`. -/
def rfind (p : String) (c : Char) : Int := rfindAux p.data c 0 (-1)

/-- The extension component of `os.path.splitext(p)` (CPython
`genericpath._splitext` with `sep='/'`, `extsep='.'`): everything from the
last dot onwards, provided that dot lies after the last path separator and a
non-dot character stands strictly between them (so a leading-dot name like
".bashrc" has no extension). -/
def splitextExt (p : String) : String :=
  let cs := p.data
  let sepIndex : Int := rfind p '/'
  let dotIndex : Int := rfind p '.'
  if sepIndex < dotIndex then
    let between := (cs.drop (sepIndex + 1).toNat).take (dotIndex - sepIndex - 1).toNat
    if between.any (fun ch => ch ≠ '.') then String.mk (cs.drop dotIndex.toNat)
    else ""
  else ""

/-- Outcome of one HTTP request to `/predict`: a 200 with the response body,
or an `HTTPException` surfaced as a status code and detail string. -/
inductive HttpResult where
  | ok (resp : PredictionResponse)
  | httpError (statusCode : Nat) (detail : String)
  deriving DecidableEq, Repr

/-- The `try` block of `predict_issue` (main.py lines 244–265): the
empty-body check raising `HTTPException(400, "Empty file uploaded")`, then
preprocessing, prediction, and construction of the response (which drops
`severity_confidence`). -/
def predictTryBody (image_bytes : List Nat)
    (decodeResize : List Nat → Option RGBImage)
    (model : Option (Tensor → Predictions)) :
    Except PyError PredictionResponse :=
  if image_bytes.length = 0 then
    .error (.httpException 400 "Empty file uploaded")
  else do
    let image_array ← preprocess_image decodeResize image_bytes
    let result ← predict_issue_and_severity model image_array
    pure ⟨result.issue_type, result.severity, result.confidence⟩

/-- The `except` clauses of `predict_issue` (main.py lines 267–281), checked
in source order: `ValueError` → 400, `RuntimeError` → 500, and any other
exception — including the `HTTPException` raised inside the `try` block —
falls to the catch-all and becomes a 500 with detail
"Unexpected error: " ++ `str(e)`. -/
def handlePredictErrors :
    Except PyError PredictionResponse → HttpResult
  | .ok r => .ok r
  | .error (.valueError m) => .httpError 400 ("Image processing error: " ++ m)
  | .error (.runtimeError m) => .httpError 500 ("Model inference error: " ++ m)
  | .error e => .httpError 500 ("Unexpected error: " ++ pyStr e)

/-- The `/predict` handler `predict_issue` (main.py lines 217–281): extension
validation outside the `try` block, then the `try` body filtered through the
`except` clauses. -/
def predict_issue (filename : String) (image_bytes : List Nat)
    (decodeResize : List Nat → Option RGBImage)
    (model : Option (Tensor → Predictions)) : HttpResult :=
  if splitextExt filename ∉ ALLOWED_EXTENSIONS then
    .httpError 400 ("Invalid file type. Allowed: " ++ String.intercalate ", " ALLOWED_EXTENSIONS)
  else
    handlePredictErrors (predictTryBody image_bytes decodeResize model)

/-- The `/health` handler `health_check` (main.py lines 284–299). -/
def health_check (model : Option (Tensor → Predictions)) : HealthResponse :=
  let model_loaded := model.isSome
  ⟨if model_loaded then "healthy" else "model_not_loaded", model_loaded⟩

/-- Well-formedness of the preprocessed tensor: shape `[1, 224, 224, 3]`
(expressed through the nesting lengths) with every value in `[0, 1]`. -/
def tensorWellFormed (t : Tensor) : Prop :=
  t.length = 1 ∧
  ∀ b ∈ t, b.length = 224 ∧
    ∀ row ∈ b, row.length = 224 ∧
      ∀ px ∈ row, px.length = 3 ∧ ∀ v ∈ px, 0 ≤ v ∧ v ≤ 1

/-- A concrete all-black 224×224 decoded image, used to instantiate the
preprocessing theorem. -/
def constImage : RGBImage :=
  ⟨List.replicate 224 (List.replicate 224 (0, 0, 0))⟩

/-! ## Helper lemmas -/

@[simp]
theorem exceptBind_ok {α β : Type} (a : α) (f : α → Except PyError β) :
    (Except.ok a >>= f) = f a := rfl

@[simp]
theorem exceptBind_error {α β : Type} (e : PyError) (f : α → Except PyError β) :
    ((Except.error e : Except PyError α) >>= f) = Except.error e := rfl

theorem argmax_cons_cons (x y : ℚ) (ys : List ℚ) :
    argmax (x :: y :: ys) =
      if x < (y :: ys).getD (argmax (y :: ys)) 0 then argmax (y :: ys) + 1
      else 0 := rfl

theorem argmax_lt_length (l : List ℚ) (h : l ≠ []) : argmax l < l.length := by
  induction l with
  | nil => exact absurd rfl h
  | cons x xs ih =>
    cases xs with
    | nil => simp [argmax]
    | cons y ys =>
      have hlt := ih (by simp)
      by_cases hc : x < (y :: ys).getD (argmax (y :: ys)) 0
      · rw [argmax_cons_cons, if_pos hc]
        simp only [List.length_cons] at hlt ⊢
        omega
      · rw [argmax_cons_cons, if_neg hc]
        simp

theorem argmax_is_max (l : List ℚ) (j : Nat) (hj : j < l.length) :
    l.getD j 0 ≤ l.getD (argmax l) 0 := by
  induction l generalizing j with
  | nil => simp at hj
  | cons x xs ih =>
    cases xs with
    | nil =>
      cases j with
      | zero => simp [argmax]
      | succ k => simp at hj
    | cons y ys =>
      by_cases hc : x < (y :: ys).getD (argmax (y :: ys)) 0
      · simp only [argmax, if_pos hc]
        cases j with
        | zero =>
          rw [List.getD_cons_zero, List.getD_cons_succ]
          exact le_of_lt hc
        | succ k =>
          have hk : k < (y :: ys).length := by simpa using hj
          rw [List.getD_cons_succ, List.getD_cons_succ]
          exact ih k hk
      · simp only [argmax, if_neg hc]
        cases j with
        | zero => simp
        | succ k =>
          have hk : k < (y :: ys).length := by simpa using hj
          rw [List.getD_cons_succ, List.getD_cons_zero]
          exact le_trans (ih k hk) (not_lt.mp hc)

theorem argmax_le_of_ge_max (l : List ℚ) (j : Nat) (hj : j < l.length)
    (hge : l.getD (argmax l) 0 ≤ l.getD j 0) : argmax l ≤ j := by
  induction l generalizing j with
  | nil => simp at hj
  | cons x xs ih =>
    cases xs with
    | nil => simp [argmax]
    | cons y ys =>
      by_cases hc : x < (y :: ys).getD (argmax (y :: ys)) 0
      · simp only [argmax, if_pos hc] at hge ⊢
        cases j with
        | zero =>
          exfalso
          rw [List.getD_cons_succ, List.getD_cons_zero] at hge
          exact absurd (lt_of_lt_of_le hc hge) (lt_irrefl x)
        | succ k =>
          have hk : k < (y :: ys).length := by simpa using hj
          rw [List.getD_cons_succ, List.getD_cons_succ] at hge
          exact Nat.succ_le_succ (ih k hk hge)
      · rw [argmax_cons_cons, if_neg hc]
        exact Nat.zero_le j

theorem npArgmax_eq_ok (l : List ℚ) (h : l ≠ []) : npArgmax l = .ok (argmax l) := by
  cases l with
  | nil => exact absurd rfl h
  | cons x xs => rfl

theorem npArgmax_nil :
    npArgmax [] =
      .error (.valueError "attempt to get argmax of an empty sequence") := rfl

theorem pyGet_eq_ok {α : Type} (l : List α) (i : Nat) (d : α) (h : i < l.length) :
    pyGet l i = .ok (l.getD i d) := by
  simp only [pyGet]
  rw [dif_pos h, List.getD_eq_getElem?_getD, List.getElem?_eq_getElem h]
  simp [List.get_eq_getElem]

theorem pyGet_eq_error {α : Type} (l : List α) (i : Nat) (h : l.length ≤ i) :
    pyGet l i = .error .indexError := by
  simp only [pyGet]
  rw [dif_neg (by omega)]

theorem extractProbs_positional (ip sp : List ℚ) :
    extractProbs (.positional [[ip], [sp]]) = .ok (ip, sp) := rfl

theorem extractProbs_keyed (ip sp : List ℚ) :
    extractProbs (.keyed [("issue_output", [ip]), ("severity_output", [sp])]) =
      .ok (ip, sp) := rfl

theorem decodePredictions_eq_ok (ip sp : List ℚ) (p : Predictions)
    (hp : extractProbs p = .ok (ip, sp))
    (h1 : ip ≠ []) (h2 : sp ≠ [])
    (h3 : argmax ip < ISSUE_CLASSES.length)
    (h4 : argmax sp < SEVERITY_CLASSES.length) :
    decodePredictions p =
      .ok ⟨ISSUE_CLASSES.getD (argmax ip) "", SEVERITY_CLASSES.getD (argmax sp) "",
           ip.getD (argmax ip) 0, sp.getD (argmax sp) 0⟩ := by
  have hip := argmax_lt_length ip h1
  have hsp := argmax_lt_length sp h2
  simp only [decodePredictions, hp, exceptBind_ok,
    npArgmax_eq_ok ip h1, npArgmax_eq_ok sp h2,
    pyGet_eq_ok ISSUE_CLASSES (argmax ip) "" h3,
    pyGet_eq_ok SEVERITY_CLASSES (argmax sp) "" h4,
    pyGet_eq_ok ip (argmax ip) (0 : ℚ) hip,
    pyGet_eq_ok sp (argmax sp) (0 : ℚ) hsp]
  rfl

theorem decodePredictions_severity_index_error (ip sp : List ℚ) (p : Predictions)
    (hp : extractProbs p = .ok (ip, sp))
    (h1 : ip ≠ []) (h2 : sp ≠ [])
    (h3 : argmax ip < ISSUE_CLASSES.length)
    (h4 : SEVERITY_CLASSES.length ≤ argmax sp) :
    decodePredictions p = .error .indexError := by
  have hip := argmax_lt_length ip h1
  simp only [decodePredictions, hp, exceptBind_ok,
    npArgmax_eq_ok ip h1, npArgmax_eq_ok sp h2,
    pyGet_eq_ok ISSUE_CLASSES (argmax ip) "" h3,
    pyGet_eq_error SEVERITY_CLASSES (argmax sp) h4, exceptBind_error]

theorem decodePredictions_ok_inv (ip sp : List ℚ) (r : InternalResult)
    (h : decodePredictions (.positional [[ip], [sp]]) = .ok r) :
    ip ≠ [] ∧ sp ≠ [] ∧
    r = ⟨ISSUE_CLASSES.getD (argmax ip) "", SEVERITY_CLASSES.getD (argmax sp) "",
         ip.getD (argmax ip) 0, sp.getD (argmax sp) 0⟩ := by
  by_cases h1 : ip = []
  · subst h1
    simp [decodePredictions, extractProbs_positional, npArgmax] at h
  by_cases h2 : sp = []
  · subst h2
    simp only [decodePredictions, extractProbs_positional, exceptBind_ok,
      npArgmax_eq_ok ip h1, npArgmax_nil, exceptBind_error] at h
    simp at h
  by_cases h3 : argmax ip < ISSUE_CLASSES.length
  · by_cases h4 : argmax sp < SEVERITY_CLASSES.length
    · have heq := decodePredictions_eq_ok ip sp _ (extractProbs_positional ip sp)
        h1 h2 h3 h4
      rw [heq] at h
      exact ⟨h1, h2, (Except.ok.inj h).symm⟩
    · have herr := decodePredictions_severity_index_error ip sp _
        (extractProbs_positional ip sp) h1 h2 h3 (by omega)
      rw [herr] at h
      simp at h
  · have herr : decodePredictions (.positional [[ip], [sp]]) = .error .indexError := by
      simp only [decodePredictions, extractProbs_positional, exceptBind_ok,
        npArgmax_eq_ok ip h1, npArgmax_eq_ok sp h2,
        pyGet_eq_error ISSUE_CLASSES (argmax ip) (by omega), exceptBind_error]
    rw [herr] at h
    simp at h

theorem constImage_wellSized : constImage.wellSized := by
  refine ⟨rfl, ?_⟩
  intro row hrow
  simp only [constImage, List.mem_replicate] at hrow
  rw [hrow.2]
  refine ⟨rfl, ?_⟩
  intro px hpx
  simp only [List.mem_replicate] at hpx
  rw [hpx.2]
  exact ⟨by norm_num, by norm_num, by norm_num⟩

theorem decode_example (p : Predictions)
    (hp : extractProbs p =
      .ok ([(0.1 : ℚ), 0.7, 0.1, 0.1], [(0.2 : ℚ), 0.3, 0.5])) :
    decodePredictions p = .ok ⟨"garbage", "high", 0.7, 0.5⟩ := by
  have ha : argmax [(0.1 : ℚ), 0.7, 0.1, 0.1] = 1 := by norm_num [argmax]
  have hb : argmax [(0.2 : ℚ), 0.3, 0.5] = 2 := by norm_num [argmax]
  rw [decodePredictions_eq_ok _ _ _ hp (by simp) (by simp)
    (by rw [ha]; simp [ISSUE_CLASSES]) (by rw [hb]; simp [SEVERITY_CLASSES])]
  rw [ha, hb]
  simp [ISSUE_CLASSES, SEVERITY_CLASSES]

/-! ## Claim theorems -/

/-- C1: the claim says an empty upload with a valid filename extension gets
HTTP 400, and indeed the handler raises
`HTTPException(400, "Empty file uploaded")` — but it does so inside the `try`
block, whose final `except Exception` clause catches the `HTTPException` (it
is neither a `ValueError` nor a `RuntimeError`) and re-raises it as a 500
with detail "Unexpected error: 400: Empty file uploaded".  So for every
decoder and model state, the handler answers 500, not 400: the code
contradicts its own intended empty-upload validation. -/
theorem c1_empty_upload_returns_500
    (decodeResize : List Nat → Option RGBImage)
    (model : Option (Tensor → Predictions)) :
    predict_issue "a.jpg" [] decodeResize model =
      .httpError 500 "Unexpected error: 400: Empty file uploaded" := rfl

/-- C2 counterexample: the mixed-case extension ".Jpg" is what
`os.path.splitext` yields for "photo.Jpg", it is not a member of
`ALLOWED_EXTENSIONS`, and the handler rejects the request with the
invalid-file-type 400 — contradicting the claim that every case-insensitive
match of .jpg/.jpeg/.png passes validation. -/
theorem c2_mixed_case_extension_rejected :
    splitextExt "photo.Jpg" = ".Jpg" ∧ ".Jpg" ∉ ALLOWED_EXTENSIONS ∧
    predict_issue "photo.Jpg" [1] (fun _ => none) none =
      .httpError 400
        ("Invalid file type. Allowed: " ++ String.intercalate ", " ALLOWED_EXTENSIONS) :=
  ⟨rfl, by decide, rfl⟩

/-- C2 (amended): the extension check is exact string membership in
`ALLOWED_EXTENSIONS` = \x7b.jpg, .jpeg, .png, .JPG, .JPEG, .PNG\x7d — the
all-lowercase and all-uppercase spellings pass, any other extension
(including mixed-case forms such as .Jpg) yields HTTP 400 whose value does
not depend on the decoder or the model; on a member the handler proceeds to
the `try` body. -/
theorem c2_extension_check_exact (filename : String) (image_bytes : List Nat)
    (decodeResize : List Nat → Option RGBImage)
    (model : Option (Tensor → Predictions)) :
    predict_issue filename image_bytes decodeResize model =
      if splitextExt filename ∈ ALLOWED_EXTENSIONS then
        handlePredictErrors (predictTryBody image_bytes decodeResize model)
      else
        .httpError 400
          ("Invalid file type. Allowed: " ++ String.intercalate ", " ALLOWED_EXTENSIONS) := by
  by_cases hmem : splitextExt filename ∈ ALLOWED_EXTENSIONS <;>
    simp [predict_issue, hmem]

/-- C3 counterexample: on a severity vector of length 2 (mismatched against
the 3 severity classes) the decoder does not fail — it returns the label at
the vector's arg-max index ("medium"), contradicting the claimed defensive
length check. -/
theorem c3_short_severity_vector_returns_label :
    decodePredictions (.positional [[[0.1, 0.7, 0.1, 0.1]], [[0.2, 0.8]]]) =
      .ok ⟨"garbage", "medium", 0.7, 0.8⟩ := by
  have ha : argmax [(0.1 : ℚ), 0.7, 0.1, 0.1] = 1 := by norm_num [argmax]
  have hb : argmax [(0.2 : ℚ), 0.8] = 1 := by norm_num [argmax]
  rw [decodePredictions_eq_ok [(0.1 : ℚ), 0.7, 0.1, 0.1] [(0.2 : ℚ), 0.8] _
    (extractProbs_positional _ _) (by simp) (by simp)
    (by rw [ha]; simp [ISSUE_CLASSES]) (by rw [hb]; simp [SEVERITY_CLASSES])]
  rw [ha, hb]
  simp [ISSUE_CLASSES, SEVERITY_CLASSES]

/-- C3 (amended): the decoder raises `IndexError` only when the arg-max index
of a vector is out of range for its class list, i.e. when the vector is
longer than the class list with its maximum at an index past the last class;
a mismatched vector that is shorter (such as a severity vector of length 2)
silently returns the class label at its arg-max index. -/
theorem c3_length_mismatch_behavior (issueProbs severityProbs : List ℚ)
    (h1 : issueProbs ≠ []) (h2 : severityProbs ≠ [])
    (h3 : argmax issueProbs < ISSUE_CLASSES.length) :
    decodePredictions (.positional [[issueProbs], [severityProbs]]) =
      if argmax severityProbs < SEVERITY_CLASSES.length then
        .ok ⟨ISSUE_CLASSES.getD (argmax issueProbs) "",
             SEVERITY_CLASSES.getD (argmax severityProbs) "",
             issueProbs.getD (argmax issueProbs) 0,
             severityProbs.getD (argmax severityProbs) 0⟩
      else
        .error .indexError := by
  by_cases h4 : argmax severityProbs < SEVERITY_CLASSES.length
  · rw [if_pos h4]
    exact decodePredictions_eq_ok issueProbs severityProbs _
      (extractProbs_positional issueProbs severityProbs) h1 h2 h3 h4
  · rw [if_neg h4]
    exact decodePredictions_severity_index_error issueProbs severityProbs _
      (extractProbs_positional issueProbs severityProbs) h1 h2 h3 (by omega)

theorem c3_length_mismatch_behavior_witness :
    decodePredictions
        (.positional [[[(0.1 : ℚ), 0.7, 0.1, 0.1]], [[(0.2 : ℚ), 0.8]]]) =
      if argmax [(0.2 : ℚ), 0.8] < SEVERITY_CLASSES.length then
        .ok ⟨ISSUE_CLASSES.getD (argmax [(0.1 : ℚ), 0.7, 0.1, 0.1]) "",
             SEVERITY_CLASSES.getD (argmax [(0.2 : ℚ), 0.8]) "",
             List.getD [(0.1 : ℚ), 0.7, 0.1, 0.1]
               (argmax [(0.1 : ℚ), 0.7, 0.1, 0.1]) 0,
             List.getD [(0.2 : ℚ), 0.8] (argmax [(0.2 : ℚ), 0.8]) 0⟩
      else
        .error .indexError :=
  c3_length_mismatch_behavior [(0.1 : ℚ), 0.7, 0.1, 0.1] [(0.2 : ℚ), 0.8]
    (by simp) (by simp) (by norm_num [argmax, ISSUE_CLASSES])

/-- C4: on issueProbs = [0.1, 0.7, 0.1, 0.1] and
severityProbs = [0.2, 0.3, 0.5] the decoder returns
issue_type = ISSUE_CLASSES[1] = "garbage",
severity = SEVERITY_CLASSES[2] = "high", and confidence = 0.7. -/
theorem c4_worked_example :
    decodePredictions (.keyed [("issue_output", [[0.1, 0.7, 0.1, 0.1]]),
        ("severity_output", [[0.2, 0.3, 0.5]])]) =
      .ok ⟨"garbage", "high", 0.7, 0.5⟩ ∧
    ISSUE_CLASSES.getD 1 "" = "garbage" ∧ SEVERITY_CLASSES.getD 2 "" = "high" :=
  ⟨decode_example _ (extractProbs_keyed _ _), rfl, rfl⟩

/-- C5: the decoder's arg-max yields a valid index whose value is maximal,
and among equal maximal values it selects the lowest index: any index `j`
whose value is also maximal satisfies `argmax l ≤ j`. -/
theorem c5_argmax_first_occurrence (l : List ℚ) (j : Nat) (h : l ≠ [])
    (hj : j < l.length) :
    argmax l < l.length ∧ l.getD j 0 ≤ l.getD (argmax l) 0 ∧
      (l.getD (argmax l) 0 ≤ l.getD j 0 → argmax l ≤ j) :=
  ⟨argmax_lt_length l h, argmax_is_max l j hj,
   fun hge => argmax_le_of_ge_max l j hj hge⟩

theorem c5_argmax_first_occurrence_witness :
    argmax [(0.5 : ℚ), 0.5, 0, 0] = 0 ∧
    argmax [(0.5 : ℚ), 0.5, 0, 0] < ([(0.5 : ℚ), 0.5, 0, 0]).length ∧
    List.getD [(0.5 : ℚ), 0.5, 0, 0] 1 0 ≤
      List.getD [(0.5 : ℚ), 0.5, 0, 0] (argmax [(0.5 : ℚ), 0.5, 0, 0]) 0 ∧
    argmax [(0.5 : ℚ), 0.5, 0, 0] ≤ 1 :=
  ⟨by norm_num [argmax],
   (c5_argmax_first_occurrence [(0.5 : ℚ), 0.5, 0, 0] 1 (by simp) (by norm_num)).1,
   (c5_argmax_first_occurrence [(0.5 : ℚ), 0.5, 0, 0] 1 (by simp) (by norm_num)).2.1,
   (c5_argmax_first_occurrence [(0.5 : ℚ), 0.5, 0, 0] 1 (by simp) (by norm_num)).2.2
     (by norm_num [argmax])⟩

/-- C6: the decoder produces identical results on the keyed shape
(dict with "issue_output" / "severity_output" entries) and on the equivalent
positional pair, for every pair of probability vectors. -/
theorem c6_keyed_positional_equivalence (issueProbs severityProbs : List ℚ) :
    decodePredictions (.keyed [("issue_output", [issueProbs]),
        ("severity_output", [severityProbs])]) =
      decodePredictions (.positional [[issueProbs], [severityProbs]]) := by
  simp only [decodePredictions, extractProbs_keyed, extractProbs_positional]

/-- C7: whenever decoding succeeds, the confidence field equals the issue
head's probability at the issue head's arg-max index — never a value from
the severity head's vector. -/
theorem c7_confidence_from_issue_head (issueProbs severityProbs : List ℚ)
    (r : InternalResult)
    (h : decodePredictions (.positional [[issueProbs], [severityProbs]]) = .ok r) :
    r.confidence = issueProbs.getD (argmax issueProbs) 0 := by
  obtain ⟨-, -, hr⟩ := decodePredictions_ok_inv issueProbs severityProbs r h
  rw [hr]

theorem c7_confidence_from_issue_head_witness :
    InternalResult.confidence ⟨"garbage", "high", 0.7, 0.5⟩ =
      List.getD [(0.1 : ℚ), 0.7, 0.1, 0.1] (argmax [(0.1 : ℚ), 0.7, 0.1, 0.1]) 0 :=
  c7_confidence_from_issue_head [(0.1 : ℚ), 0.7, 0.1, 0.1] [(0.2 : ℚ), 0.3, 0.5]
    ⟨"garbage", "high", 0.7, 0.5⟩ (decode_example _ (extractProbs_positional _ _))

/-- C8: for every byte buffer the external PIL pipeline decodes (producing,
per its contract, a 224×224 RGB grid of 8-bit channels), `preprocess_image`
returns the tensor obtained by dividing every channel by 255 and prepending
a batch dimension, and that tensor has shape [1, 224, 224, 3] with every
value in [0, 1]. -/
theorem c8_preprocess_shape_and_range
    (decodeResize : List Nat → Option RGBImage) (image_bytes : List Nat)
    (img : RGBImage) (hdec : decodeResize image_bytes = some img)
    (hwf : img.wellSized) :
    preprocess_image decodeResize image_bytes =
      .ok (expandDims (normalizeImage img)) ∧
    tensorWellFormed (expandDims (normalizeImage img)) := by
  obtain ⟨hlen, hrows⟩ := hwf
  refine ⟨by simp [preprocess_image, hdec], rfl, ?_⟩
  intro b hb
  simp only [expandDims, List.mem_singleton] at hb
  subst hb
  constructor
  · rw [normalizeImage, List.length_map]
    exact hlen
  · intro row hrow
    simp only [normalizeImage, List.mem_map] at hrow
    obtain ⟨row0, hrow0, rfl⟩ := hrow
    obtain ⟨hrowlen, hpx⟩ := hrows row0 hrow0
    constructor
    · rw [List.length_map]
      exact hrowlen
    · intro px hpxmem
      simp only [List.mem_map] at hpxmem
      obtain ⟨px0, hpx0, rfl⟩ := hpxmem
      obtain ⟨hr, hg, hb2⟩ := hpx px0 hpx0
      refine ⟨rfl, ?_⟩
      intro v hv
      have bound : ∀ c : Nat, c ≤ 255 → 0 ≤ (c : ℚ) / 255 ∧ (c : ℚ) / 255 ≤ 1 := by
        intro c hcle
        constructor
        · positivity
        · rw [div_le_one (by norm_num)]
          exact_mod_cast hcle
      simp only [pixelToChannels, List.mem_cons, List.not_mem_nil, or_false] at hv
      rcases hv with hv | hv | hv <;> rw [hv]
      · exact bound px0.1 hr
      · exact bound px0.2.1 hg
      · exact bound px0.2.2 hb2

theorem c8_preprocess_shape_and_range_witness :
    preprocess_image (fun _ => some constImage) [0] =
      .ok (expandDims (normalizeImage constImage)) ∧
    tensorWellFormed (expandDims (normalizeImage constImage)) :=
  c8_preprocess_shape_and_range (fun _ => some constImage) [0] constImage rfl
    constImage_wellSized

/-- C9: for every model state, `/health` reports
model_loaded = true with status "healthy" exactly when a model is loaded and
model_loaded = false with status "model_not_loaded" otherwise; in particular
status is "healthy" if and only if model_loaded is true. -/
theorem c9_health_check_status (model : Option (Tensor → Predictions)) :
    ((health_check model).status = "healthy" ↔
      (health_check model).model_loaded = true) ∧
    ((health_check model).status = "model_not_loaded" ↔
      (health_check model).model_loaded = false) ∧
    ((health_check model).model_loaded = true ↔ model.isSome = true) := by
  cases model <;> simp [health_check]

/-- C10: whenever decoding succeeds its internal result carries
severity_confidence = the severity head's probability at the severity
arg-max index, yet the serialized `/predict` response body has exactly the
keys issue_type, severity, and confidence — severity_confidence is never
among them. -/
theorem c10_severity_confidence_internal_only
    (issueProbs severityProbs : List ℚ) (r : InternalResult)
    (resp : PredictionResponse)
    (h : decodePredictions (.positional [[issueProbs], [severityProbs]]) = .ok r) :
    r.severity_confidence = severityProbs.getD (argmax severityProbs) 0 ∧
    resp.toJson.map Prod.fst = ["issue_type", "severity", "confidence"] ∧
    "severity_confidence" ∉ resp.toJson.map Prod.fst := by
  obtain ⟨-, -, hr⟩ := decodePredictions_ok_inv issueProbs severityProbs r h
  refine ⟨by rw [hr], rfl, ?_⟩
  simp [PredictionResponse.toJson]

theorem c10_severity_confidence_internal_only_witness :
    InternalResult.severity_confidence ⟨"garbage", "high", 0.7, 0.5⟩ =
      List.getD [(0.2 : ℚ), 0.3, 0.5] (argmax [(0.2 : ℚ), 0.3, 0.5]) 0 ∧
    (PredictionResponse.toJson ⟨"garbage", "high", 0.7⟩).map Prod.fst =
      ["issue_type", "severity", "confidence"] ∧
    "severity_confidence" ∉
      (PredictionResponse.toJson ⟨"garbage", "high", 0.7⟩).map Prod.fst :=
  c10_severity_confidence_internal_only [(0.1 : ℚ), 0.7, 0.1, 0.1]
    [(0.2 : ℚ), 0.3, 0.5] ⟨"garbage", "high", 0.7, 0.5⟩ ⟨"garbage", "high", 0.7⟩
    (decode_example _ (extractProbs_positional _ _))

end CivicKural
